import Mathlib

/-!
Verification of the request-resolution and batch-orchestration layer of the
mcp_cosmosdb_go repository, by a shallow embedding of its tool handlers.

The embedding follows the Go source under src/tools. Backend interactions
(client construction, database/container clients, page fetches, item CRUD,
batch submit) are modelled by an explicit Backend record of result-valued
functions; every handler returns its Go result value, the Go error as an
Option String, and the number of backend operations it performed before
returning, so that the no-backend-interaction properties are expressible.
-/

namespace CosmosTools

/-- A shallow model of the JSON values stored in the map literals of the Go
code: strings and numbers are all the handlers ever put into the throughput
info map. -/
inductive JVal where
  | str (s : String)
  | num (n : Int)
deriving DecidableEq, Repr

/-- Lookup in an association list, mirroring Go map key access for the maps
the handlers build. -/
def alistLookup (k : String) : List (String × JVal) → Option JVal
  | [] => none
  | (k', v) :: rest => if k' = k then some v else alistLookup k rest

/-- Number of bindings of a key in an association list. -/
def alistCount (k : String) (l : List (String × JVal)) : Nat :=
  l.countP (fun kv => kv.1 = k)

/-- Outcome of the ReadThroughput backend call in
ReadContainerMetadataToolHandler (container.go line 149): a success carries
the optional manual value and the optional autoscale max of the returned
ThroughputProperties; a failure is either an azcore.ResponseError with an
HTTP status code and error code, or any other Go error with its message. -/
inductive ThroughputReadOutcome where
  | ok (manual : Option Int) (autoscaleMax : Option Int)
  | httpError (statusCode : Nat) (errorCode : String)
  | otherError (msg : String)
deriving DecidableEq, Repr

/-- The throughput classification of ReadContainerMetadataToolHandler
(container.go lines 148 to 192), transcribed branch by branch. The Go
variable throughputInfo starts as a nil map and each branch that assigns
it is a some here; the successful read in which neither a manual value nor
an autoscale max is present assigns nothing, so the nil map (none) survives
to the metadata. -/
def buildThroughputInfo : ThroughputReadOutcome → Option (List (String × JVal))
  | .httpError status code =>
      if status = 404 then
        some [("type", .str "shared"),
              ("message", .str "Throughput is provisioned at database level")]
      else if status = 400 then
        some [("type", .str "unknown"),
              ("message", .str "Unable to read throughput (emulator limitation or unsupported operation)")]
      else
        some [("type", .str "error"),
              ("message", .str ("Failed to read throughput: " ++ code))]
  | .otherError msg =>
      some [("type", .str "error"),
            ("message", .str ("Failed to read throughput: " ++ msg))]
  | .ok manual autoscaleMax =>
      match manual with
      | some m => some [("type", .str "manual"), ("ru_per_second", .num m)]
      | none =>
        match autoscaleMax with
        | some maxRU =>
            some [("type", .str "autoscale"), ("max_ru_per_second", .num maxRU)]
        | none => none

/-- The five caller-facing throughput type tags of the classification. -/
def throughputTypes : List String :=
  ["manual", "autoscale", "shared", "unknown", "error"]

/-- Container properties returned by containerClient.Read, as consumed by
ReadContainerMetadataToolHandler (container.go lines 195 to 200). -/
structure ContainerProps where
  ID : String
  DefaultTimeToLive : Option Int
  IndexingPolicy : JVal
  PartitionKeyDefinition : JVal
  ConflictResolutionPolicy : JVal
  UniqueKeyPolicy : JVal
deriving DecidableEq, Repr

/-- The metadata map built by ReadContainerMetadataToolHandler
(container.go lines 194 to 202) before JSON marshalling; the throughput
entry is the possibly-nil throughput info map. -/
structure ContainerMetadata where
  container_id : String
  default_ttl : Option Int
  indexing_policy : JVal
  partition_key_definition : JVal
  conflict_resolution_policy : JVal
  unique_key_policy : JVal
  throughput : Option (List (String × JVal))
deriving DecidableEq, Repr

/-- The backend surface the handlers in src/tools touch, one field per SDK
operation. Pager sequences are given as the list of page results the
successive NextPage calls would yield. -/
structure Backend where
  getCosmosClient : String → Except String Unit
  newDatabase : String → Except String Unit
  newContainer : String → Except String Unit
  createDatabase : String → Except String Unit
  createContainer : String → String → Option Int → Except String Unit
  createItem : String → String → Except String Unit
  readItem : String → String → Except String String
  containerRead : Except String ContainerProps
  throughputRead : ThroughputReadOutcome
  databasePages : List (Except String (List String))
  containerPages : List (Except String (List String))
  queryPages : List (Except String (List String))

/-- The page-draining loop shared by the paged handlers (query.go lines 155
to 170, container.go lines 61 to 72, database.go lines 44 to 53): fetch
pages until exhaustion, accumulating items in arrival order; on a failed
fetch return that error, discarding the accumulator. The second component
counts the page fetches performed. -/
def drainPages (acc : List String) :
    List (Except String (List String)) → Except String (List String) × Nat
  | [] => (.ok acc, 0)
  | .error e :: _ => (.error e, 1)
  | .ok items :: rest =>
      let r := drainPages (acc ++ items) rest
      (r.1, r.2 + 1)

/-- Whether every page fetch of a pager run succeeds. -/
def pagesAllOk : List (Except String (List String)) → Bool
  | [] => true
  | .ok _ :: rest => pagesAllOk rest
  | .error _ :: _ => false

/-- Concatenation, in arrival order, of the items of the successful pages. -/
def pagesJoin : List (Except String (List String)) → List String
  | [] => []
  | .ok items :: rest => items ++ pagesJoin rest
  | .error _ :: rest => pagesJoin rest

/-- The error of the first failing page fetch, if any. -/
def firstPageError : List (Except String (List String)) → Option String
  | [] => none
  | .ok _ :: rest => firstPageError rest
  | .error e :: _ => some e

theorem drainPages_allOk (pages : List (Except String (List String)))
    (h : pagesAllOk pages = true) (acc : List String) :
    (drainPages acc pages).1 = .ok (acc ++ pagesJoin pages) := by
  induction pages generalizing acc with
  | nil => simp [drainPages, pagesJoin]
  | cons p rest ih =>
      cases p with
      | ok items =>
          simp only [pagesAllOk] at h
          simp [drainPages, pagesJoin, ih h, List.append_assoc]
      | error e => simp [pagesAllOk] at h

theorem drainPages_fail (pages : List (Except String (List String)))
    (h : pagesAllOk pages = false) (acc : List String) :
    (drainPages acc pages).1 = .error ((firstPageError pages).getD "") := by
  induction pages generalizing acc with
  | nil => simp [pagesAllOk] at h
  | cons p rest ih =>
      cases p with
      | ok items =>
          simp only [pagesAllOk] at h
          simp [drainPages, firstPageError, ih h]
      | error e => simp [drainPages, firstPageError]

/-! Handler embeddings, one per handler in src/tools. Each returns the Go
result value (zero value on failure, as the Go code returns the
zero-valued struct), the Go error as an Option String, and the number of
backend operations performed. -/

structure ListDatabasesToolInput where
  Account : String
deriving DecidableEq, Repr

structure ListDatabasesToolResult where
  Account : String
  Databases : List String
deriving DecidableEq, Repr

/-- ListDatabasesToolHandler, database.go lines 29 to 56. -/
def ListDatabasesToolHandler (be : Backend) (input : ListDatabasesToolInput) :
    ListDatabasesToolResult × Option String × Nat :=
  if input.Account = "" then (⟨"", []⟩, some "cosmos db account name missing", 0)
  else
    match be.getCosmosClient input.Account with
    | .error e => (⟨"", []⟩, some e, 1)
    | .ok _ =>
        let r := drainPages [] be.databasePages
        match r.1 with
        | .error e => (⟨"", []⟩, some e, 1 + r.2)
        | .ok names => (⟨input.Account, names⟩, none, 1 + r.2)

structure CreateDatabaseToolInput where
  Account : String
  Database : String
deriving DecidableEq, Repr

structure CreateDatabaseToolResult where
  Account : String
  Database : String
  Message : String
deriving DecidableEq, Repr

/-- CreateDatabaseToolHandler, database.go lines 76 to 102. -/
def CreateDatabaseToolHandler (be : Backend) (input : CreateDatabaseToolInput) :
    CreateDatabaseToolResult × Option String × Nat :=
  if input.Account = "" then (⟨"", "", ""⟩, some "cosmos db account name missing", 0)
  else if input.Database = "" then (⟨"", "", ""⟩, some "database name missing", 0)
  else
    match be.getCosmosClient input.Account with
    | .error e => (⟨"", "", ""⟩, some e, 1)
    | .ok _ =>
        match be.createDatabase input.Database with
        | .error e => (⟨"", "", ""⟩, some ("error creating database: " ++ e), 2)
        | .ok _ =>
            (⟨input.Account, input.Database,
              "Database \x27" ++ input.Database ++ "\x27 created successfully"⟩,
             none, 2)

structure ListContainersToolInput where
  Account : String
  Database : String
deriving DecidableEq, Repr

structure ListContainersToolResult where
  Account : String
  Database : String
  Containers : List String
deriving DecidableEq, Repr

/-- ListContainersToolHandler, container.go lines 33 to 80. -/
def ListContainersToolHandler (be : Backend) (input : ListContainersToolInput) :
    ListContainersToolResult × Option String × Nat :=
  if input.Account = "" then (⟨"", "", []⟩, some "cosmos db account name missing", 0)
  else if input.Database = "" then (⟨"", "", []⟩, some "cosmos db database name missing", 0)
  else
    match be.getCosmosClient input.Account with
    | .error e => (⟨"", "", []⟩, some e, 1)
    | .ok _ =>
        match be.newDatabase input.Database with
        | .error e => (⟨"", "", []⟩, some ("error creating database client: " ++ e), 2)
        | .ok _ =>
            let r := drainPages [] be.containerPages
            match r.1 with
            | .error e => (⟨"", "", []⟩, some e, 2 + r.2)
            | .ok names => (⟨input.Account, input.Database, names⟩, none, 2 + r.2)

structure ReadContainerMetadataToolInput where
  Account : String
  Database : String
  Container : String
deriving DecidableEq, Repr

/-- ReadContainerMetadataToolHandler, container.go lines 105 to 223. On
success the handler serializes the metadata map to JSON text; the embedding
returns the map itself. -/
def ReadContainerMetadataToolHandler (be : Backend)
    (input : ReadContainerMetadataToolInput) :
    Option ContainerMetadata × Option String × Nat :=
  if input.Account = "" then (none, some "cosmos db account name missing", 0)
  else if input.Database = "" then (none, some "cosmos db database name missing", 0)
  else if input.Container = "" then (none, some "container name missing", 0)
  else
    match be.getCosmosClient input.Account with
    | .error e => (none, some e, 1)
    | .ok _ =>
        match be.newDatabase input.Database with
        | .error e => (none, some ("error creating database client: " ++ e), 2)
        | .ok _ =>
            match be.newContainer input.Container with
            | .error e => (none, some ("error creating container client: " ++ e), 3)
            | .ok _ =>
                match be.containerRead with
                | .error e => (none, some e, 4)
                | .ok props =>
                    (some { container_id := props.ID,
                            default_ttl := props.DefaultTimeToLive,
                            indexing_policy := props.IndexingPolicy,
                            partition_key_definition := props.PartitionKeyDefinition,
                            conflict_resolution_policy := props.ConflictResolutionPolicy,
                            unique_key_policy := props.UniqueKeyPolicy,
                            throughput := buildThroughputInfo be.throughputRead },
                     none, 5)

structure CreateContainerToolInput where
  Account : String
  Database : String
  Container : String
  PartitionKeyPath : String
  Throughput : Option Int
deriving DecidableEq, Repr

structure CreateContainerToolResult where
  Account : String
  Database : String
  Container : String
  Message : String
deriving DecidableEq, Repr

/-- CreateContainerToolHandler, container.go lines 247 to 312. -/
def CreateContainerToolHandler (be : Backend) (input : CreateContainerToolInput) :
    CreateContainerToolResult × Option String × Nat :=
  if input.Account = "" then (⟨"", "", "", ""⟩, some "cosmos db account name missing", 0)
  else if input.Database = "" then (⟨"", "", "", ""⟩, some "cosmos db database name missing", 0)
  else if input.Container = "" then (⟨"", "", "", ""⟩, some "container name missing", 0)
  else if input.PartitionKeyPath = "" then (⟨"", "", "", ""⟩, some "partition key path missing", 0)
  else
    match be.getCosmosClient input.Account with
    | .error e => (⟨"", "", "", ""⟩, some e, 1)
    | .ok _ =>
        match be.newDatabase input.Database with
        | .error e => (⟨"", "", "", ""⟩, some ("error creating database client: " ++ e), 2)
        | .ok _ =>
            match be.createContainer input.Container input.PartitionKeyPath input.Throughput with
            | .error e => (⟨"", "", "", ""⟩, some ("error creating container: " ++ e), 3)
            | .ok _ =>
                (⟨input.Account, input.Database, input.Container,
                  "Container \x27" ++ input.Container ++
                    "\x27 created successfully in database \x27" ++ input.Database ++ "\x27"⟩,
                 none, 3)

structure AddItemToContainerToolInput where
  Account : String
  Database : String
  Container : String
  PartitionKey : String
  Item : String
deriving DecidableEq, Repr

structure AddItemToContainerToolResult where
  Account : String
  Database : String
  Container : String
  Message : String
deriving DecidableEq, Repr

/-- AddItemToContainerToolHandler, container.go lines 336 to 399. -/
def AddItemToContainerToolHandler (be : Backend) (input : AddItemToContainerToolInput) :
    AddItemToContainerToolResult × Option String × Nat :=
  if input.Account = "" then (⟨"", "", "", ""⟩, some "cosmos db account name missing", 0)
  else if input.Database = "" then (⟨"", "", "", ""⟩, some "cosmos db database name missing", 0)
  else if input.Container = "" then (⟨"", "", "", ""⟩, some "container name missing", 0)
  else if input.PartitionKey = "" then (⟨"", "", "", ""⟩, some "value for partition key missing", 0)
  else if input.Item = "" then (⟨"", "", "", ""⟩, some "item JSON missing", 0)
  else
    match be.getCosmosClient input.Account with
    | .error e => (⟨"", "", "", ""⟩, some e, 1)
    | .ok _ =>
        match be.newDatabase input.Database with
        | .error e => (⟨"", "", "", ""⟩, some ("error creating database client: " ++ e), 2)
        | .ok _ =>
            match be.newContainer input.Container with
            | .error e => (⟨"", "", "", ""⟩, some ("error creating container client: " ++ e), 3)
            | .ok _ =>
                match be.createItem input.PartitionKey input.Item with
                | .error e => (⟨"", "", "", ""⟩, some ("error adding item to container: " ++ e), 4)
                | .ok _ =>
                    (⟨input.Account, input.Database, input.Container,
                      "Item added successfully to container \x27" ++ input.Container ++
                        "\x27 in database \x27" ++ input.Database ++ "\x27"⟩,
                     none, 4)

structure ReadItemToolInput where
  Account : String
  Database : String
  Container : String
  ItemID : String
  PartitionKey : String
deriving DecidableEq, Repr

structure ReadItemToolResult where
  Item : String
deriving DecidableEq, Repr

/-- ReadItemToolHandler, query.go lines 32 to 77. -/
def ReadItemToolHandler (be : Backend) (input : ReadItemToolInput) :
    ReadItemToolResult × Option String × Nat :=
  if input.Account = "" then (⟨""⟩, some "cosmos db account name missing", 0)
  else if input.Database = "" then (⟨""⟩, some "database name missing", 0)
  else if input.Container = "" then (⟨""⟩, some "container name missing", 0)
  else if input.ItemID = "" then (⟨""⟩, some "item ID missing", 0)
  else if input.PartitionKey = "" then (⟨""⟩, some "partition key missing", 0)
  else
    match be.getCosmosClient input.Account with
    | .error e => (⟨""⟩, some e, 1)
    | .ok _ =>
        match be.newDatabase input.Database with
        | .error e => (⟨""⟩, some ("error creating database client: " ++ e), 2)
        | .ok _ =>
            match be.newContainer input.Container with
            | .error e => (⟨""⟩, some ("error creating container client: " ++ e), 3)
            | .ok _ =>
                match be.readItem input.PartitionKey input.ItemID with
                | .error e => (⟨""⟩, some ("error reading item: " ++ e), 4)
                | .ok itemText => (⟨itemText⟩, none, 4)

structure ExecuteQueryToolInput where
  Account : String
  Database : String
  Container : String
  Query : String
  PartitionKey : String
deriving DecidableEq, Repr

structure ExecuteQueryToolResult where
  QueryResults : List String
deriving DecidableEq, Repr

/-- ExecuteQueryToolHandler, query.go lines 111 to 173. -/
def ExecuteQueryToolHandler (be : Backend) (input : ExecuteQueryToolInput) :
    ExecuteQueryToolResult × Option String × Nat :=
  if input.Account = "" then (⟨[]⟩, some "cosmos db account name missing", 0)
  else if input.Database = "" then (⟨[]⟩, some "database name missing", 0)
  else if input.Container = "" then (⟨[]⟩, some "container name missing", 0)
  else if input.Query = "" then (⟨[]⟩, some "query string missing", 0)
  else
    match be.getCosmosClient input.Account with
    | .error e => (⟨[]⟩, some e, 1)
    | .ok _ =>
        match be.newDatabase input.Database with
        | .error e => (⟨[]⟩, some ("error creating database client: " ++ e), 2)
        | .ok _ =>
            match be.newContainer input.Container with
            | .error e => (⟨[]⟩, some ("error creating container client: " ++ e), 3)
            | .ok _ =>
                let r := drainPages [] be.queryPages
                match r.1 with
                | .error e => (⟨[]⟩, some ("query page error: " ++ e), 3 + r.2)
                | .ok items => (⟨items⟩, none, 3 + r.2)

/-! Connection resolution. The endpoint derivation and credential selection
of CosmosDBServiceClientRetriever.Get are in src (common.go lines 22 to
53); the ConnectionConfig type with Validate, GetEndpoint and the default
emulator endpoint is referenced by connection_config_test.go and
tools_test.go but its defining file is absent from src, so it is modelled
from the spec. -/

/-- Endpoint derivation of CosmosDBServiceClientRetriever.Get, common.go
line 23. -/
def serviceEndpoint (accountName : String) : String :=
  "https://" ++ accountName ++ ".documents.azure.com:443/"

/-- Credential strategies of common.go: an explicit account key from the
environment, else the default Azure credential chain. -/
inductive Credential where
  | managedIdentity
  | key (k : String)
deriving DecidableEq, Repr

structure ClientHandle where
  endpoint : String
  credential : Credential
deriving DecidableEq, Repr

/-- CosmosDBServiceClientRetriever.Get, common.go lines 22 to 53: the
endpoint is derived from the account name; the credential is the explicit
key when the COSMOSDB_ACCOUNT_KEY environment value (first argument, empty
string when unset) is non-empty, else the default credential chain. -/
def CosmosDBServiceClientRetrieverGet (accountKey : String) (accountName : String) :
    ClientHandle :=
  if accountKey = "" then ⟨serviceEndpoint accountName, .managedIdentity⟩
  else ⟨serviceEndpoint accountName, .key accountKey⟩

/-- Modelled from the spec: the well-known fixed shared key of the local
emulator (spec section 4.1; the constant also appears in the test helper in
src/tools/common.go). -/
def emulatorKey : String :=
  "C2y6yDjf5/R+ob0N8A7Cgv30VRDJIWEHLM+4QDU5DE2nQ9nDuVTqobD4b8mGGyPMbIZnqyMsEcaGQy67XIw/Jw=="

/-- Modelled from the spec: the ConnectionConfig data model (spec section
3), whose defining source file is absent from src; connection_config_test.go
exercises its Account, UseEmulator and EmulatorEndpoint fields. -/
structure ConnectionConfig where
  Account : String
  UseEmulator : Bool
  EmulatorEndpoint : String
deriving DecidableEq, Repr

/-- Modelled from the spec: the fixed default local emulator URL (spec
sections 3 and 4.1), the DefaultEmulatorEndpoint constant of
connection_config_test.go. -/
def DefaultEmulatorEndpoint : String := "https://localhost:8081"

/-- Modelled from the spec: ConnectionConfig.Validate (spec sections 3 and
4.1, connection_config_test.go lines 12 to 49): outside emulator mode an
empty account is invalid with the error "account name is required". -/
def ConnectionConfig.Validate (c : ConnectionConfig) : Option String :=
  if !c.UseEmulator && c.Account = "" then some "account name is required" else none

/-- Modelled from the spec: ConnectionConfig.GetEndpoint (spec section 4.1,
connection_config_test.go lines 96 to 133): in emulator mode the explicit
emulator endpoint if given, else the fixed default local URL; in service
mode the endpoint derived deterministically from the account name. -/
def ConnectionConfig.GetEndpoint (c : ConnectionConfig) : String :=
  if c.UseEmulator then
    if c.EmulatorEndpoint = "" then DefaultEmulatorEndpoint else c.EmulatorEndpoint
  else serviceEndpoint c.Account

/-- Modelled from the spec: connection resolution (spec section 4.1):
validate, then construct the client handle from the endpoint and the
credential strategy (emulator fixed key in emulator mode; explicit key if
configured, else the ambient credential chain). No network call is made at
resolve time, so the second component, the number of network attempts made,
is zero on every path. -/
def ConnectionConfig.GetClient (accountKey : String) (c : ConnectionConfig) :
    (Except String ClientHandle) × Nat :=
  match c.Validate with
  | some e => (.error e, 0)
  | none =>
      if c.UseEmulator then (.ok ⟨c.GetEndpoint, .key emulatorKey⟩, 0)
      else (.ok (CosmosDBServiceClientRetrieverGet accountKey c.Account), 0)

/-! The batch writer. BatchCreateItemsToolHandler is registered by the main
package and exercised by tools_test.go, but its defining source file is
absent from src; it is modelled from the spec, section 4.5. -/

/-- Modelled from the spec: a parsed JSON item document of a batch request,
as an association list of fields (spec section 3, BatchRequest). -/
structure BatchDoc where
  fields : List (String × JVal)
deriving DecidableEq, Repr

/-- Modelled from the spec: the identifier accessor of a parsed item; a
usable identifier is a non-empty string id field (spec sections 3 and
4.5). -/
def docId (d : BatchDoc) : Option String :=
  match alistLookup "id" d.fields with
  | some (.str s) => if s = "" then none else some s
  | _ => none

/-- Modelled from the spec: parse every item of the batch as JSON and
extract its identifier; the first unparsable or identifier-less item is a
local validation failure (spec section 4.5 step 2). The JSON parser itself
is external machinery and is passed in. -/
def parseAllItems (parse : String → Option BatchDoc) :
    List String → Except String (List String)
  | [] => .ok []
  | s :: rest =>
      match parse s with
      | none => .error "batch failed: invalid item JSON"
      | some d =>
          match docId d with
          | none => .error "batch failed: item missing id field"
          | some i =>
              match parseAllItems parse rest with
              | .error e => .error e
              | .ok ids => .ok (i :: ids)

/-- Whether a list of identifiers contains a duplicate. -/
def hasDuplicate : List String → Bool
  | [] => false
  | x :: xs => xs.contains x || hasDuplicate xs

/-- Modelled from the spec: the atomic multi-operation batch primitive of
the backend, scoped to one partition key (spec sections 4.5 and 5, glossary
entry Atomic batch). The store is the set of item identifiers already
present under that partition key; if any submitted identifier conflicts,
the whole batch fails and the store is unchanged, else all items are
persisted. -/
def atomicBatchCreate (store : List String) (ids : List String) :
    (Except String Unit) × List String :=
  if ids.any store.contains || hasDuplicate ids then
    (.error "transactional batch operation conflict", store)
  else (.ok (), store ++ ids)

/-- Input of batch_create_items, per tools_test.go: the embedded
ConnectionConfig plus database, container, partition key value and the
items array of JSON-document strings. -/
structure BatchCreateItemsToolInput where
  Connection : ConnectionConfig
  Database : String
  Container : String
  PartitionKey : String
  Items : List String
deriving DecidableEq, Repr

structure BatchCreateItemsToolResult where
  Account : String
  Database : String
  Container : String
  ItemsCreated : Nat
  Message : String
deriving DecidableEq, Repr

/-- Modelled from the spec: BatchCreateItemsToolHandler (spec section 4.5;
its source file is absent from src, its contract fixed by tools_test.go
lines 846 to 1042). Field validation in precedence order, then the size
bounds, then local parsing of every item, and only then one atomic backend
submit. Returns the result, the error, the number of backend calls made,
and the resulting store. -/
def BatchCreateItemsToolHandler (parse : String → Option BatchDoc)
    (store : List String) (input : BatchCreateItemsToolInput) :
    Option BatchCreateItemsToolResult × Option String × Nat × List String :=
  match input.Connection.Validate with
  | some e => (none, some e, 0, store)
  | none =>
      if input.Database = "" then (none, some "cosmos db database name missing", 0, store)
      else if input.Container = "" then (none, some "container name missing", 0, store)
      else if input.PartitionKey = "" then (none, some "partition key value missing", 0, store)
      else if input.Items.length = 0 then (none, some "items array is empty", 0, store)
      else if input.Items.length > 100 then
        (none, some "batch exceeds maximum of 100 items", 0, store)
      else
        match parseAllItems parse input.Items with
        | .error e => (none, some e, 0, store)
        | .ok ids =>
            match atomicBatchCreate store ids with
            | (.error e, store') => (none, some ("batch failed: " ++ e), 1, store')
            | (.ok _, store') =>
                (some ⟨input.Connection.Account, input.Database, input.Container,
                       input.Items.length,
                       "Successfully created " ++ toString input.Items.length ++
                         " items in container \x27" ++ input.Container ++ "\x27"⟩,
                 none, 1, store')

/-! Claim-side descriptions of the declared required-field validation: for
each tool, the declared error message of the first empty required field in
the declared precedence order (connection, then database, then container,
then operation-specific fields). -/

def requiredFieldError_listDatabases (i : ListDatabasesToolInput) : Option String :=
  if i.Account = "" then some "cosmos db account name missing" else none

def requiredFieldError_createDatabase (i : CreateDatabaseToolInput) : Option String :=
  if i.Account = "" then some "cosmos db account name missing"
  else if i.Database = "" then some "database name missing"
  else none

def requiredFieldError_listContainers (i : ListContainersToolInput) : Option String :=
  if i.Account = "" then some "cosmos db account name missing"
  else if i.Database = "" then some "cosmos db database name missing"
  else none

def requiredFieldError_readContainerMetadata (i : ReadContainerMetadataToolInput) :
    Option String :=
  if i.Account = "" then some "cosmos db account name missing"
  else if i.Database = "" then some "cosmos db database name missing"
  else if i.Container = "" then some "container name missing"
  else none

def requiredFieldError_createContainer (i : CreateContainerToolInput) : Option String :=
  if i.Account = "" then some "cosmos db account name missing"
  else if i.Database = "" then some "cosmos db database name missing"
  else if i.Container = "" then some "container name missing"
  else if i.PartitionKeyPath = "" then some "partition key path missing"
  else none

def requiredFieldError_addItemToContainer (i : AddItemToContainerToolInput) :
    Option String :=
  if i.Account = "" then some "cosmos db account name missing"
  else if i.Database = "" then some "cosmos db database name missing"
  else if i.Container = "" then some "container name missing"
  else if i.PartitionKey = "" then some "value for partition key missing"
  else if i.Item = "" then some "item JSON missing"
  else none

def requiredFieldError_readItem (i : ReadItemToolInput) : Option String :=
  if i.Account = "" then some "cosmos db account name missing"
  else if i.Database = "" then some "database name missing"
  else if i.Container = "" then some "container name missing"
  else if i.ItemID = "" then some "item ID missing"
  else if i.PartitionKey = "" then some "partition key missing"
  else none

def requiredFieldError_executeQuery (i : ExecuteQueryToolInput) : Option String :=
  if i.Account = "" then some "cosmos db account name missing"
  else if i.Database = "" then some "database name missing"
  else if i.Container = "" then some "container name missing"
  else if i.Query = "" then some "query string missing"
  else none

def requiredFieldError_batchCreateItems (i : BatchCreateItemsToolInput) : Option String :=
  match i.Connection.Validate with
  | some e => some e
  | none =>
      if i.Database = "" then some "cosmos db database name missing"
      else if i.Container = "" then some "container name missing"
      else if i.PartitionKey = "" then some "partition key value missing"
      else if i.Items.length = 0 then some "items array is empty"
      else none

theorem listDatabases_validation (be : Backend) (i : ListDatabasesToolInput)
    (h : i.Account = "") :
    ListDatabasesToolHandler be i = (⟨"", []⟩, requiredFieldError_listDatabases i, 0) := by
  simp [ListDatabasesToolHandler, requiredFieldError_listDatabases, h]

theorem createDatabase_validation (be : Backend) (i : CreateDatabaseToolInput)
    (h : i.Account = "" ∨ i.Database = "") :
    CreateDatabaseToolHandler be i = (⟨"", "", ""⟩, requiredFieldError_createDatabase i, 0) := by
  by_cases h1 : i.Account = "" <;> by_cases h2 : i.Database = "" <;>
    simp_all [CreateDatabaseToolHandler, requiredFieldError_createDatabase]

theorem listContainers_validation (be : Backend) (i : ListContainersToolInput)
    (h : i.Account = "" ∨ i.Database = "") :
    ListContainersToolHandler be i = (⟨"", "", []⟩, requiredFieldError_listContainers i, 0) := by
  by_cases h1 : i.Account = "" <;> by_cases h2 : i.Database = "" <;>
    simp_all [ListContainersToolHandler, requiredFieldError_listContainers]

theorem readContainerMetadata_validation (be : Backend)
    (i : ReadContainerMetadataToolInput)
    (h : i.Account = "" ∨ i.Database = "" ∨ i.Container = "") :
    ReadContainerMetadataToolHandler be i =
      (none, requiredFieldError_readContainerMetadata i, 0) := by
  by_cases h1 : i.Account = "" <;> by_cases h2 : i.Database = "" <;>
    by_cases h3 : i.Container = "" <;>
      simp_all [ReadContainerMetadataToolHandler, requiredFieldError_readContainerMetadata]

theorem createContainer_validation (be : Backend) (i : CreateContainerToolInput)
    (h : i.Account = "" ∨ i.Database = "" ∨ i.Container = "" ∨ i.PartitionKeyPath = "") :
    CreateContainerToolHandler be i =
      (⟨"", "", "", ""⟩, requiredFieldError_createContainer i, 0) := by
  by_cases h1 : i.Account = "" <;> by_cases h2 : i.Database = "" <;>
    by_cases h3 : i.Container = "" <;> by_cases h4 : i.PartitionKeyPath = "" <;>
      simp_all [CreateContainerToolHandler, requiredFieldError_createContainer]

theorem addItemToContainer_validation (be : Backend) (i : AddItemToContainerToolInput)
    (h : i.Account = "" ∨ i.Database = "" ∨ i.Container = "" ∨ i.PartitionKey = "" ∨
      i.Item = "") :
    AddItemToContainerToolHandler be i =
      (⟨"", "", "", ""⟩, requiredFieldError_addItemToContainer i, 0) := by
  by_cases h1 : i.Account = "" <;> by_cases h2 : i.Database = "" <;>
    by_cases h3 : i.Container = "" <;> by_cases h4 : i.PartitionKey = "" <;>
      by_cases h5 : i.Item = "" <;>
        simp_all [AddItemToContainerToolHandler, requiredFieldError_addItemToContainer]

theorem readItem_validation (be : Backend) (i : ReadItemToolInput)
    (h : i.Account = "" ∨ i.Database = "" ∨ i.Container = "" ∨ i.ItemID = "" ∨
      i.PartitionKey = "") :
    ReadItemToolHandler be i = (⟨""⟩, requiredFieldError_readItem i, 0) := by
  by_cases h1 : i.Account = "" <;> by_cases h2 : i.Database = "" <;>
    by_cases h3 : i.Container = "" <;> by_cases h4 : i.ItemID = "" <;>
      by_cases h5 : i.PartitionKey = "" <;>
        simp_all [ReadItemToolHandler, requiredFieldError_readItem]

theorem executeQuery_validation (be : Backend) (i : ExecuteQueryToolInput)
    (h : i.Account = "" ∨ i.Database = "" ∨ i.Container = "" ∨ i.Query = "") :
    ExecuteQueryToolHandler be i = (⟨[]⟩, requiredFieldError_executeQuery i, 0) := by
  by_cases h1 : i.Account = "" <;> by_cases h2 : i.Database = "" <;>
    by_cases h3 : i.Container = "" <;> by_cases h4 : i.Query = "" <;>
      simp_all [ExecuteQueryToolHandler, requiredFieldError_executeQuery]

theorem batchCreateItems_validation (parse : String → Option BatchDoc)
    (store : List String) (i : BatchCreateItemsToolInput)
    (h : (i.Connection.Validate).isSome ∨ i.Database = "" ∨ i.Container = "" ∨
      i.PartitionKey = "" ∨ i.Items.length = 0) :
    BatchCreateItemsToolHandler parse store i =
      (none, requiredFieldError_batchCreateItems i, 0, store) := by
  cases hv : i.Connection.Validate with
  | some e => simp [BatchCreateItemsToolHandler, requiredFieldError_batchCreateItems, hv]
  | none =>
      by_cases h2 : i.Database = "" <;> by_cases h3 : i.Container = "" <;>
        by_cases h4 : i.PartitionKey = "" <;> by_cases h5 : i.Items.length = 0 <;>
          simp_all [BatchCreateItemsToolHandler, requiredFieldError_batchCreateItems]

/-- Whether a throughput read outcome is a failure (any HTTP status, or an
error that is not an HTTP response error at all). -/
def ThroughputReadOutcome.isFailure : ThroughputReadOutcome → Bool
  | .ok _ _ => false
  | .httpError _ _ => true
  | .otherError _ => true

theorem buildThroughputInfo_isSome_of_failure (o : ThroughputReadOutcome)
    (h : o.isFailure = true) : (buildThroughputInfo o).isSome := by
  cases o with
  | ok m a => simp [ThroughputReadOutcome.isFailure] at h
  | httpError status code =>
      by_cases h4 : status = 404 <;> by_cases h0 : status = 400 <;>
        simp_all [buildThroughputInfo]
  | otherError msg => simp [buildThroughputInfo]

end CosmosTools

namespace CosmosTools

/-- Claim C1, counterexample: the throughput classification of
read_container_metadata is not total. At the outcome in which the
throughput read succeeds but the returned properties carry neither a manual
value nor an autoscale max, no branch of the classification assigns the
throughput info, so the result is left unclassified (the nil map). -/
theorem claim_C1_counterexample :
    buildThroughputInfo (ThroughputReadOutcome.ok none none) = none := rfl

/-- Claim C1, amended: for every outcome of the throughput read other than
a successful read in which neither a manual value nor an autoscale max is
present, the classification assigns exactly one of the five types manual,
autoscale, shared, unknown, error; in that one remaining outcome the
throughput info is left unset. -/
theorem claim_C1_amended :
    (∀ o : ThroughputReadOutcome, o ≠ ThroughputReadOutcome.ok none none →
      ∃ l, buildThroughputInfo o = some l ∧ alistCount "type" l = 1 ∧
        ∃ t, alistLookup "type" l = some (.str t) ∧ t ∈ throughputTypes) ∧
    buildThroughputInfo (ThroughputReadOutcome.ok none none) = none := by
  refine ⟨fun o ho => ?_, rfl⟩
  cases o with
  | ok m a =>
      match m, a with
      | some mval, _ =>
          exact ⟨_, rfl, rfl, "manual", rfl, by simp [throughputTypes]⟩
      | none, some amax =>
          exact ⟨_, rfl, rfl, "autoscale", rfl, by simp [throughputTypes]⟩
      | none, none => exact absurd rfl ho
  | httpError status code =>
      by_cases h4 : status = 404
      · subst h4
        exact ⟨_, rfl, rfl, "shared", rfl, by simp [throughputTypes]⟩
      · by_cases h0 : status = 400
        · subst h0
          exact ⟨_, rfl, rfl, "unknown", rfl, by simp [throughputTypes]⟩
        · refine ⟨[("type", .str "error"),
              ("message", .str ("Failed to read throughput: " ++ code))],
              ?_, rfl, "error", rfl, by simp [throughputTypes]⟩
          simp [buildThroughputInfo, h4, h0]
  | otherError msg =>
      exact ⟨_, rfl, rfl, "error", rfl, by simp [throughputTypes]⟩

/-- Claim C1, witness: the amended classification at the concrete outcome
of a 403 response error. -/
theorem claim_C1_witness :
    ∃ l, buildThroughputInfo (ThroughputReadOutcome.httpError 403 "Forbidden") = some l ∧
      alistCount "type" l = 1 ∧
      ∃ t, alistLookup "type" l = some (.str t) ∧ t ∈ throughputTypes :=
  claim_C1_amended.1 (ThroughputReadOutcome.httpError 403 "Forbidden") (by decide)

/-- Claim C7: every throughput info value produced by the classification of
read_container_metadata carries exactly one type tag, drawn from the five
types; ru_per_second is present exactly for type manual, max_ru_per_second
exactly for type autoscale, message exactly for types shared, unknown and
error; and no produced value carries both ru_per_second and message. -/
theorem claim_C7 :
    ∀ (o : ThroughputReadOutcome) (l : List (String × JVal)),
      buildThroughputInfo o = some l →
      alistCount "type" l = 1 ∧
      (∃ t, alistLookup "type" l = some (.str t) ∧ t ∈ throughputTypes) ∧
      ((alistLookup "ru_per_second" l).isSome ↔
        alistLookup "type" l = some (.str "manual")) ∧
      ((alistLookup "max_ru_per_second" l).isSome ↔
        alistLookup "type" l = some (.str "autoscale")) ∧
      ((alistLookup "message" l).isSome ↔
        (alistLookup "type" l = some (.str "shared") ∨
         alistLookup "type" l = some (.str "unknown") ∨
         alistLookup "type" l = some (.str "error"))) ∧
      ¬((alistLookup "ru_per_second" l).isSome ∧ (alistLookup "message" l).isSome) := by
  intro o l h
  cases o with
  | ok m a =>
      match m, a with
      | some mv, a =>
          simp only [buildThroughputInfo, Option.some.injEq] at h
          subst h
          exact ⟨rfl, ⟨"manual", rfl, by decide⟩, by simp [alistLookup],
            by simp [alistLookup], by simp [alistLookup], by simp [alistLookup]⟩
      | none, some amax =>
          simp only [buildThroughputInfo, Option.some.injEq] at h
          subst h
          exact ⟨rfl, ⟨"autoscale", rfl, by decide⟩, by simp [alistLookup],
            by simp [alistLookup], by simp [alistLookup], by simp [alistLookup]⟩
      | none, none => simp [buildThroughputInfo] at h
  | httpError status code =>
      by_cases h4 : status = 404
      · subst h4
        have h' := Option.some.inj h
        subst h'
        exact ⟨rfl, ⟨"shared", rfl, by decide⟩, by simp [alistLookup],
          by simp [alistLookup], by simp [alistLookup], by simp [alistLookup]⟩
      · by_cases h0 : status = 400
        · subst h0
          have h' := Option.some.inj h
          subst h'
          exact ⟨rfl, ⟨"unknown", rfl, by decide⟩, by simp [alistLookup],
            by simp [alistLookup], by simp [alistLookup], by simp [alistLookup]⟩
        · simp only [buildThroughputInfo] at h
          rw [if_neg h4, if_neg h0, Option.some.injEq] at h
          subst h
          exact ⟨rfl, ⟨"error", rfl, by decide⟩, by simp [alistLookup],
            by simp [alistLookup], by simp [alistLookup], by simp [alistLookup]⟩
  | otherError msg =>
      simp only [buildThroughputInfo, Option.some.injEq] at h
      subst h
      exact ⟨rfl, ⟨"error", rfl, by decide⟩, by simp [alistLookup],
        by simp [alistLookup], by simp [alistLookup], by simp [alistLookup]⟩

/-- Claim C7, witness: the shared info map produced for a 404 response. -/
theorem claim_C7_witness :
    alistCount "type" [("type", JVal.str "shared"),
        ("message", JVal.str "Throughput is provisioned at database level")] = 1 ∧
    (∃ t, alistLookup "type" [("type", JVal.str "shared"),
        ("message", JVal.str "Throughput is provisioned at database level")] =
        some (.str t) ∧ t ∈ throughputTypes) ∧
    ((alistLookup "ru_per_second" [("type", JVal.str "shared"),
        ("message", JVal.str "Throughput is provisioned at database level")]).isSome ↔
      alistLookup "type" [("type", JVal.str "shared"),
        ("message", JVal.str "Throughput is provisioned at database level")] =
        some (.str "manual")) ∧
    ((alistLookup "max_ru_per_second" [("type", JVal.str "shared"),
        ("message", JVal.str "Throughput is provisioned at database level")]).isSome ↔
      alistLookup "type" [("type", JVal.str "shared"),
        ("message", JVal.str "Throughput is provisioned at database level")] =
        some (.str "autoscale")) ∧
    ((alistLookup "message" [("type", JVal.str "shared"),
        ("message", JVal.str "Throughput is provisioned at database level")]).isSome ↔
      (alistLookup "type" [("type", JVal.str "shared"),
        ("message", JVal.str "Throughput is provisioned at database level")] =
          some (.str "shared") ∨
       alistLookup "type" [("type", JVal.str "shared"),
        ("message", JVal.str "Throughput is provisioned at database level")] =
          some (.str "unknown") ∨
       alistLookup "type" [("type", JVal.str "shared"),
        ("message", JVal.str "Throughput is provisioned at database level")] =
          some (.str "error"))) ∧
    ¬((alistLookup "ru_per_second" [("type", JVal.str "shared"),
        ("message", JVal.str "Throughput is provisioned at database level")]).isSome ∧
      (alistLookup "message" [("type", JVal.str "shared"),
        ("message", JVal.str "Throughput is provisioned at database level")]).isSome) :=
  claim_C7 (ThroughputReadOutcome.httpError 404 "NotFound") _ rfl

/-- A fixed backend used to witness the theorems at concrete inputs: all
constructions succeed, the pagers yield successful pages, and the
throughput read fails with a non-HTTP error. -/
def witnessBackend : Backend where
  getCosmosClient := fun _ => .ok ()
  newDatabase := fun _ => .ok ()
  newContainer := fun _ => .ok ()
  createDatabase := fun _ => .ok ()
  createContainer := fun _ _ _ => .ok ()
  createItem := fun _ _ => .ok ()
  readItem := fun _ _ => .ok "itemdata"
  containerRead := .ok ⟨"testContainer", none, .str "ip", .str "pkd", .str "crp", .str "ukp"⟩
  throughputRead := .otherError "connection reset"
  databasePages := [.ok ["db1", "db2"], .ok ["db3"]]
  containerPages := [.ok ["c1"], .ok ["c2"]]
  queryPages := [.ok ["r1", "r2"], .ok ["r3"]]

/-- A fixed backend whose pagers fail on their second page, used to witness
the abort-on-page-failure theorems. -/
def failingPagesBackend : Backend :=
  { witnessBackend with
      databasePages := [.ok ["db1"], .error "db page boom"]
      containerPages := [.ok ["c1"], .error "container page boom"]
      queryPages := [.ok ["r1"], .error "query page boom"] }

/-- Claim C10: read_container_metadata never fails because of the
throughput read. Whenever the container read itself succeeded, then for
every failing outcome of the throughput read, HTTP response error of any
status or a non-HTTP error, the handler still returns the container
metadata with no error, embedding the classified throughput info, which is
set. -/
theorem claim_C10 (be : Backend) (input : ReadContainerMetadataToolInput)
    (hA : input.Account ≠ "") (hD : input.Database ≠ "") (hC : input.Container ≠ "")
    (hcl : be.getCosmosClient input.Account = .ok ())
    (hdb : be.newDatabase input.Database = .ok ())
    (hco : be.newContainer input.Container = .ok ())
    (props : ContainerProps) (hread : be.containerRead = .ok props)
    (hfail : be.throughputRead.isFailure = true) :
    ReadContainerMetadataToolHandler be input =
      (some { container_id := props.ID, default_ttl := props.DefaultTimeToLive,
              indexing_policy := props.IndexingPolicy,
              partition_key_definition := props.PartitionKeyDefinition,
              conflict_resolution_policy := props.ConflictResolutionPolicy,
              unique_key_policy := props.UniqueKeyPolicy,
              throughput := buildThroughputInfo be.throughputRead },
       none, 5) ∧
    (buildThroughputInfo be.throughputRead).isSome := by
  refine ⟨?_, buildThroughputInfo_isSome_of_failure _ hfail⟩
  simp [ReadContainerMetadataToolHandler, hA, hD, hC, hcl, hdb, hco, hread]

/-- Claim C10, witness: concrete metadata read with a non-HTTP throughput
failure. -/
theorem claim_C10_witness :
    ReadContainerMetadataToolHandler witnessBackend ⟨"acct", "db", "cont"⟩ =
      (some { container_id := "testContainer", default_ttl := none,
              indexing_policy := .str "ip", partition_key_definition := .str "pkd",
              conflict_resolution_policy := .str "crp", unique_key_policy := .str "ukp",
              throughput := some [("type", .str "error"),
                ("message", .str "Failed to read throughput: connection reset")] },
       none, 5) ∧
    (buildThroughputInfo witnessBackend.throughputRead).isSome := by
  have h := claim_C10 witnessBackend ⟨"acct", "db", "cont"⟩ (by decide) (by decide)
    (by decide) rfl rfl rfl _ rfl rfl
  exact h

/-- The JSON item parser used to witness the batch theorems at concrete
inputs: every item string parses to a document whose id field is the string
itself. -/
def witnessParse : String → Option BatchDoc := fun s => some ⟨[("id", .str s)]⟩

/-- Claim C3: for every tool, an input with an empty required field returns
the declared error message of that field, the fields being checked in the
declared precedence order, connection, then database, then container, then
the operation-specific fields, so the first empty field determines the
message; the zero-valued result is returned and no backend operation, not
even client construction, is performed. -/
theorem claim_C3 (be : Backend) (parse : String → Option BatchDoc) (store : List String)
    (i1 : ListDatabasesToolInput) (i2 : CreateDatabaseToolInput)
    (i3 : ListContainersToolInput) (i4 : ReadContainerMetadataToolInput)
    (i5 : CreateContainerToolInput) (i6 : AddItemToContainerToolInput)
    (i7 : ReadItemToolInput) (i8 : ExecuteQueryToolInput)
    (i9 : BatchCreateItemsToolInput) :
    (i1.Account = "" →
      ListDatabasesToolHandler be i1 = (⟨"", []⟩, requiredFieldError_listDatabases i1, 0)) ∧
    (i2.Account = "" ∨ i2.Database = "" →
      CreateDatabaseToolHandler be i2 =
        (⟨"", "", ""⟩, requiredFieldError_createDatabase i2, 0)) ∧
    (i3.Account = "" ∨ i3.Database = "" →
      ListContainersToolHandler be i3 =
        (⟨"", "", []⟩, requiredFieldError_listContainers i3, 0)) ∧
    (i4.Account = "" ∨ i4.Database = "" ∨ i4.Container = "" →
      ReadContainerMetadataToolHandler be i4 =
        (none, requiredFieldError_readContainerMetadata i4, 0)) ∧
    (i5.Account = "" ∨ i5.Database = "" ∨ i5.Container = "" ∨ i5.PartitionKeyPath = "" →
      CreateContainerToolHandler be i5 =
        (⟨"", "", "", ""⟩, requiredFieldError_createContainer i5, 0)) ∧
    (i6.Account = "" ∨ i6.Database = "" ∨ i6.Container = "" ∨ i6.PartitionKey = "" ∨
        i6.Item = "" →
      AddItemToContainerToolHandler be i6 =
        (⟨"", "", "", ""⟩, requiredFieldError_addItemToContainer i6, 0)) ∧
    (i7.Account = "" ∨ i7.Database = "" ∨ i7.Container = "" ∨ i7.ItemID = "" ∨
        i7.PartitionKey = "" →
      ReadItemToolHandler be i7 = (⟨""⟩, requiredFieldError_readItem i7, 0)) ∧
    (i8.Account = "" ∨ i8.Database = "" ∨ i8.Container = "" ∨ i8.Query = "" →
      ExecuteQueryToolHandler be i8 = (⟨[]⟩, requiredFieldError_executeQuery i8, 0)) ∧
    ((i9.Connection.Validate).isSome ∨ i9.Database = "" ∨ i9.Container = "" ∨
        i9.PartitionKey = "" ∨ i9.Items.length = 0 →
      BatchCreateItemsToolHandler parse store i9 =
        (none, requiredFieldError_batchCreateItems i9, 0, store)) :=
  ⟨fun h => listDatabases_validation be i1 h,
   fun h => createDatabase_validation be i2 h,
   fun h => listContainers_validation be i3 h,
   fun h => readContainerMetadata_validation be i4 h,
   fun h => createContainer_validation be i5 h,
   fun h => addItemToContainer_validation be i6 h,
   fun h => readItem_validation be i7 h,
   fun h => executeQuery_validation be i8 h,
   fun h => batchCreateItems_validation parse store i9 h⟩

/-- Claim C3, witness: one concrete empty-field input per tool, each
returning the declared message of the first empty field with zero backend
operations. -/
theorem claim_C3_witness :
    ListDatabasesToolHandler witnessBackend ⟨""⟩ =
      (⟨"", []⟩, some "cosmos db account name missing", 0) ∧
    CreateDatabaseToolHandler witnessBackend ⟨"acct", ""⟩ =
      (⟨"", "", ""⟩, some "database name missing", 0) ∧
    ListContainersToolHandler witnessBackend ⟨"acct", ""⟩ =
      (⟨"", "", []⟩, some "cosmos db database name missing", 0) ∧
    ReadContainerMetadataToolHandler witnessBackend ⟨"acct", "db", ""⟩ =
      (none, some "container name missing", 0) ∧
    CreateContainerToolHandler witnessBackend ⟨"acct", "db", "cont", "", none⟩ =
      (⟨"", "", "", ""⟩, some "partition key path missing", 0) ∧
    AddItemToContainerToolHandler witnessBackend ⟨"acct", "db", "cont", "", ""⟩ =
      (⟨"", "", "", ""⟩, some "value for partition key missing", 0) ∧
    ReadItemToolHandler witnessBackend ⟨"acct", "db", "cont", "", "pk"⟩ =
      (⟨""⟩, some "item ID missing", 0) ∧
    ExecuteQueryToolHandler witnessBackend ⟨"acct", "db", "cont", "", "pk"⟩ =
      (⟨[]⟩, some "query string missing", 0) ∧
    BatchCreateItemsToolHandler witnessParse []
        ⟨⟨"", false, ""⟩, "db", "cont", "pk", ["a"]⟩ =
      (none, some "account name is required", 0, []) := by
  have h := claim_C3 witnessBackend witnessParse [] ⟨""⟩ ⟨"acct", ""⟩ ⟨"acct", ""⟩
    ⟨"acct", "db", ""⟩ ⟨"acct", "db", "cont", "", none⟩ ⟨"acct", "db", "cont", "", ""⟩
    ⟨"acct", "db", "cont", "", "pk"⟩ ⟨"acct", "db", "cont", "", "pk"⟩
    ⟨⟨"", false, ""⟩, "db", "cont", "pk", ["a"]⟩
  exact ⟨h.1 rfl, h.2.1 (Or.inr rfl), h.2.2.1 (Or.inr rfl),
    h.2.2.2.1 (Or.inr (Or.inr rfl)),
    h.2.2.2.2.1 (Or.inr (Or.inr (Or.inr rfl))),
    h.2.2.2.2.2.1 (Or.inr (Or.inr (Or.inr (Or.inl rfl)))),
    h.2.2.2.2.2.2.1 (Or.inr (Or.inr (Or.inr (Or.inl rfl)))),
    h.2.2.2.2.2.2.2.1 (Or.inr (Or.inr (Or.inr rfl))),
    h.2.2.2.2.2.2.2.2 (Or.inl rfl)⟩

/-- Claim C6: in every paged read, execute_query, list_databases and
list_containers, if any page fetch fails the handler aborts with that
error and the zero-valued result: items collected from earlier pages are
discarded and the caller never receives a partial result list. -/
theorem claim_C6 (be : Backend) (iq : ExecuteQueryToolInput)
    (il : ListDatabasesToolInput) (ic : ListContainersToolInput) :
    (iq.Account ≠ "" → iq.Database ≠ "" → iq.Container ≠ "" → iq.Query ≠ "" →
      be.getCosmosClient iq.Account = .ok () → be.newDatabase iq.Database = .ok () →
      be.newContainer iq.Container = .ok () → pagesAllOk be.queryPages = false →
      (ExecuteQueryToolHandler be iq).1 = ⟨[]⟩ ∧
      (ExecuteQueryToolHandler be iq).2.1 =
        some ("query page error: " ++ (firstPageError be.queryPages).getD "")) ∧
    (il.Account ≠ "" → be.getCosmosClient il.Account = .ok () →
      pagesAllOk be.databasePages = false →
      (ListDatabasesToolHandler be il).1 = ⟨"", []⟩ ∧
      (ListDatabasesToolHandler be il).2.1 =
        some ((firstPageError be.databasePages).getD "")) ∧
    (ic.Account ≠ "" → ic.Database ≠ "" → be.getCosmosClient ic.Account = .ok () →
      be.newDatabase ic.Database = .ok () → pagesAllOk be.containerPages = false →
      (ListContainersToolHandler be ic).1 = ⟨"", "", []⟩ ∧
      (ListContainersToolHandler be ic).2.1 =
        some ((firstPageError be.containerPages).getD "")) := by
  refine ⟨fun h1 h2 h3 h4 hcl hdb hco hfail => ?_,
          fun h1 hcl hfail => ?_,
          fun h1 h2 hcl hdb hfail => ?_⟩
  · simp [ExecuteQueryToolHandler, h1, h2, h3, h4, hcl, hdb, hco,
      drainPages_fail be.queryPages hfail]
  · simp [ListDatabasesToolHandler, h1, hcl,
      drainPages_fail be.databasePages hfail]
  · simp [ListContainersToolHandler, h1, h2, hcl, hdb,
      drainPages_fail be.containerPages hfail]

/-- Claim C6, witness: each paged handler run against a backend whose
second page fails returns the empty result and the error of that page. -/
theorem claim_C6_witness :
    ((ExecuteQueryToolHandler failingPagesBackend ⟨"a", "d", "c", "q", ""⟩).1 = ⟨[]⟩ ∧
     (ExecuteQueryToolHandler failingPagesBackend ⟨"a", "d", "c", "q", ""⟩).2.1 =
       some "query page error: query page boom") ∧
    ((ListDatabasesToolHandler failingPagesBackend ⟨"a"⟩).1 = ⟨"", []⟩ ∧
     (ListDatabasesToolHandler failingPagesBackend ⟨"a"⟩).2.1 =
       some "db page boom") ∧
    ((ListContainersToolHandler failingPagesBackend ⟨"a", "d"⟩).1 = ⟨"", "", []⟩ ∧
     (ListContainersToolHandler failingPagesBackend ⟨"a", "d"⟩).2.1 =
       some "container page boom") := by
  have h := claim_C6 failingPagesBackend ⟨"a", "d", "c", "q", ""⟩ ⟨"a"⟩ ⟨"a", "d"⟩
  exact ⟨h.1 (by decide) (by decide) (by decide) (by decide) rfl rfl rfl rfl,
    h.2.1 (by decide) rfl rfl,
    h.2.2 (by decide) (by decide) rfl rfl rfl⟩

/-- Claim C8: when every page fetch succeeds, each paged read drives the
pager to completion and returns, with no error, the one result list equal
to the concatenation of the items of every page in arrival order. -/
theorem claim_C8 (be : Backend) (iq : ExecuteQueryToolInput)
    (il : ListDatabasesToolInput) (ic : ListContainersToolInput) :
    (iq.Account ≠ "" → iq.Database ≠ "" → iq.Container ≠ "" → iq.Query ≠ "" →
      be.getCosmosClient iq.Account = .ok () → be.newDatabase iq.Database = .ok () →
      be.newContainer iq.Container = .ok () → pagesAllOk be.queryPages = true →
      (ExecuteQueryToolHandler be iq).2.1 = none ∧
      (ExecuteQueryToolHandler be iq).1 = ⟨pagesJoin be.queryPages⟩) ∧
    (il.Account ≠ "" → be.getCosmosClient il.Account = .ok () →
      pagesAllOk be.databasePages = true →
      (ListDatabasesToolHandler be il).2.1 = none ∧
      (ListDatabasesToolHandler be il).1 = ⟨il.Account, pagesJoin be.databasePages⟩) ∧
    (ic.Account ≠ "" → ic.Database ≠ "" → be.getCosmosClient ic.Account = .ok () →
      be.newDatabase ic.Database = .ok () → pagesAllOk be.containerPages = true →
      (ListContainersToolHandler be ic).2.1 = none ∧
      (ListContainersToolHandler be ic).1 =
        ⟨ic.Account, ic.Database, pagesJoin be.containerPages⟩) := by
  refine ⟨fun h1 h2 h3 h4 hcl hdb hco hok => ?_,
          fun h1 hcl hok => ?_,
          fun h1 h2 hcl hdb hok => ?_⟩
  · simp [ExecuteQueryToolHandler, h1, h2, h3, h4, hcl, hdb, hco,
      drainPages_allOk be.queryPages hok]
  · simp [ListDatabasesToolHandler, h1, hcl,
      drainPages_allOk be.databasePages hok]
  · simp [ListContainersToolHandler, h1, h2, hcl, hdb,
      drainPages_allOk be.containerPages hok]

/-- Claim C8, witness: each paged handler run against a backend with two
successful pages returns their concatenated items and no error. -/
theorem claim_C8_witness :
    ((ExecuteQueryToolHandler witnessBackend ⟨"a", "d", "c", "q", ""⟩).2.1 = none ∧
     (ExecuteQueryToolHandler witnessBackend ⟨"a", "d", "c", "q", ""⟩).1 =
       ⟨["r1", "r2", "r3"]⟩) ∧
    ((ListDatabasesToolHandler witnessBackend ⟨"a"⟩).2.1 = none ∧
     (ListDatabasesToolHandler witnessBackend ⟨"a"⟩).1 =
       ⟨"a", ["db1", "db2", "db3"]⟩) ∧
    ((ListContainersToolHandler witnessBackend ⟨"a", "d"⟩).2.1 = none ∧
     (ListContainersToolHandler witnessBackend ⟨"a", "d"⟩).1 =
       ⟨"a", "d", ["c1", "c2"]⟩) := by
  have h := claim_C8 witnessBackend ⟨"a", "d", "c", "q", ""⟩ ⟨"a"⟩ ⟨"a", "d"⟩
  exact ⟨h.1 (by decide) (by decide) (by decide) (by decide) rfl rfl rfl rfl,
    h.2.1 (by decide) rfl rfl,
    h.2.2 (by decide) (by decide) rfl rfl rfl⟩

/-- Claim C2: when any single item of a batch_create_items call conflicts
at the backend with an already-present identifier, the handler reports the
one aggregate batch failed error, the store is unchanged, so zero of the
submitted items are persisted, and no result carrying a partial created
count is returned. -/
theorem claim_C2 (parse : String → Option BatchDoc) (store : List String)
    (input : BatchCreateItemsToolInput)
    (hv : input.Connection.Validate = none) (hD : input.Database ≠ "")
    (hC : input.Container ≠ "") (hP : input.PartitionKey ≠ "")
    (hne : input.Items.length ≠ 0) (hle : input.Items.length ≤ 100)
    (ids : List String) (hparse : parseAllItems parse input.Items = .ok ids)
    (hconf : ids.any store.contains = true) :
    BatchCreateItemsToolHandler parse store input =
      (none, some "batch failed: transactional batch operation conflict", 1, store) := by
  have hgt : ¬ input.Items.length > 100 := by omega
  simp [BatchCreateItemsToolHandler, hv, hD, hC, hP, hne, hgt, hparse,
    atomicBatchCreate, hconf]

/-- Claim C2, witness: a three-item batch whose second item duplicates an
identifier already in the store is rejected whole, leaving the store as it
was. -/
theorem claim_C2_witness :
    BatchCreateItemsToolHandler witnessParse ["existing_item"]
        ⟨⟨"acct", false, ""⟩, "db", "cont", "pk",
          ["new_item_1", "existing_item", "new_item_2"]⟩ =
      (none, some "batch failed: transactional batch operation conflict", 1,
       ["existing_item"]) := by
  exact claim_C2 witnessParse ["existing_item"]
    ⟨⟨"acct", false, ""⟩, "db", "cont", "pk",
      ["new_item_1", "existing_item", "new_item_2"]⟩
    rfl (by decide) (by decide) (by decide) (by decide) (by decide)
    ["new_item_1", "existing_item", "new_item_2"] rfl rfl

/-- Distinct witness identifiers: the string of n+1 letters x. -/
def natName : Nat → String
  | 0 => "x"
  | n + 1 => natName n ++ "x"

/-- One hundred distinct witness items. -/
def batchItems100 : List String := (List.range 100).map natName

/-- One hundred and one distinct witness items. -/
def batchItems101 : List String := (List.range 101).map natName

/-- Claim C4: batch_create_items rejects an empty items array with the
message items array is empty and a 101-item array with the message batch
exceeds maximum of 100 items, both with zero backend calls and an
unchanged store; and a 100-item array of valid distinct fresh identifiers
succeeds with an itemsCreated count of exactly 100. -/
theorem claim_C4 (parse : String → Option BatchDoc) (store : List String)
    (a b c : BatchCreateItemsToolInput) :
    (a.Connection.Validate = none → a.Database ≠ "" → a.Container ≠ "" →
      a.PartitionKey ≠ "" → a.Items = [] →
      BatchCreateItemsToolHandler parse store a =
        (none, some "items array is empty", 0, store)) ∧
    (b.Connection.Validate = none → b.Database ≠ "" → b.Container ≠ "" →
      b.PartitionKey ≠ "" → b.Items.length = 101 →
      BatchCreateItemsToolHandler parse store b =
        (none, some "batch exceeds maximum of 100 items", 0, store)) ∧
    (c.Connection.Validate = none → c.Database ≠ "" → c.Container ≠ "" →
      c.PartitionKey ≠ "" → c.Items.length = 100 →
      ∀ ids, parseAllItems parse c.Items = .ok ids →
        ids.any store.contains = false → hasDuplicate ids = false →
        (BatchCreateItemsToolHandler parse store c).2.1 = none ∧
        ((BatchCreateItemsToolHandler parse store c).1.map
          (fun r => r.ItemsCreated)) = some 100) := by
  refine ⟨fun hv hD hC hP hnil => ?_, fun hv hD hC hP hlen => ?_,
    fun hv hD hC hP hlen ids hparse hfresh hnodup => ?_⟩
  · simp [BatchCreateItemsToolHandler, hv, hD, hC, hP, hnil]
  · have hne : b.Items.length ≠ 0 := by omega
    have hgt : b.Items.length > 100 := by omega
    simp [BatchCreateItemsToolHandler, hv, hD, hC, hP, hne, hgt]
  · have hne : c.Items.length ≠ 0 := by omega
    have hgt : ¬ c.Items.length > 100 := by omega
    have hres : BatchCreateItemsToolHandler parse store c =
        (some ⟨c.Connection.Account, c.Database, c.Container, c.Items.length,
           "Successfully created " ++ toString c.Items.length ++
             " items in container \x27" ++ c.Container ++ "\x27"⟩,
         none, 1, store ++ ids) := by
      simp [BatchCreateItemsToolHandler, hv, hD, hC, hP, hne, hgt, hparse,
        atomicBatchCreate, hfresh, hnodup]
    rw [hres]
    simp [hlen]

/-- Claim C4, witness: the empty batch, a 101-item batch, and a 100-item
batch of distinct fresh identifiers, against the empty store. -/
theorem claim_C4_witness :
    BatchCreateItemsToolHandler witnessParse []
        ⟨⟨"acct", false, ""⟩, "db", "cont", "pk", []⟩ =
      (none, some "items array is empty", 0, []) ∧
    BatchCreateItemsToolHandler witnessParse []
        ⟨⟨"acct", false, ""⟩, "db", "cont", "pk", batchItems101⟩ =
      (none, some "batch exceeds maximum of 100 items", 0, []) ∧
    ((BatchCreateItemsToolHandler witnessParse []
        ⟨⟨"acct", false, ""⟩, "db", "cont", "pk", batchItems100⟩).2.1 = none ∧
     ((BatchCreateItemsToolHandler witnessParse []
        ⟨⟨"acct", false, ""⟩, "db", "cont", "pk", batchItems100⟩).1.map
          (fun r => r.ItemsCreated)) = some 100) := by
  have h := claim_C4 witnessParse []
    ⟨⟨"acct", false, ""⟩, "db", "cont", "pk", []⟩
    ⟨⟨"acct", false, ""⟩, "db", "cont", "pk", batchItems101⟩
    ⟨⟨"acct", false, ""⟩, "db", "cont", "pk", batchItems100⟩
  refine ⟨h.1 rfl (by decide) (by decide) (by decide) rfl,
    h.2.1 rfl (by decide) (by decide) (by decide) (by rfl),
    h.2.2 rfl (by decide) (by decide) (by decide) (by rfl) batchItems100
      (by rfl) (by rfl) (by rfl)⟩

/-- An item list of a parse-backed batch request fails local parsing as
soon as some item lacks a usable identifier. -/
theorem parseAllItems_fail (parse : String → Option BatchDoc) (items : List String)
    (hbad : ∃ s ∈ items, (parse s).bind docId = none) :
    ∃ e, parseAllItems parse items = .error e := by
  induction items with
  | nil => simp at hbad
  | cons s rest ih =>
      rcases hbad with ⟨t, ht, hbt⟩
      rcases List.mem_cons.mp ht with h | h
      · subst h
        cases hp : parse t with
        | none =>
            exact ⟨"batch failed: invalid item JSON", by simp [parseAllItems, hp]⟩
        | some d =>
            rw [hp] at hbt
            rw [show (some d).bind docId = docId d from rfl] at hbt
            exact ⟨"batch failed: item missing id field",
              by simp [parseAllItems, hp, hbt]⟩
      · cases hp : parse s with
        | none =>
            exact ⟨"batch failed: invalid item JSON", by simp [parseAllItems, hp]⟩
        | some d =>
            cases hd : docId d with
            | none =>
                exact ⟨"batch failed: item missing id field",
                  by simp [parseAllItems, hp, hd]⟩
            | some i =>
                obtain ⟨e, he⟩ := ih ⟨t, h, hbt⟩
                exact ⟨e, by simp [parseAllItems, hp, hd, he]⟩

/-- Claim C5: in batch_create_items every item is parsed before dispatch,
and a batch containing any item without a usable identifier fails as a
local validation failure: the handler returns an error, no result, makes
zero backend calls, and the store is untouched. -/
theorem claim_C5 (parse : String → Option BatchDoc) (store : List String)
    (input : BatchCreateItemsToolInput)
    (hv : input.Connection.Validate = none) (hD : input.Database ≠ "")
    (hC : input.Container ≠ "") (hP : input.PartitionKey ≠ "")
    (hne : input.Items.length ≠ 0) (hle : input.Items.length ≤ 100)
    (hbad : ∃ s ∈ input.Items, (parse s).bind docId = none) :
    (BatchCreateItemsToolHandler parse store input).1 = none ∧
    ((BatchCreateItemsToolHandler parse store input).2.1).isSome ∧
    (BatchCreateItemsToolHandler parse store input).2.2 = (0, store) := by
  obtain ⟨e, he⟩ := parseAllItems_fail parse input.Items hbad
  have hgt : ¬ input.Items.length > 100 := by omega
  refine ⟨?_, ?_, ?_⟩ <;>
    simp [BatchCreateItemsToolHandler, hv, hD, hC, hP, hne, hgt, he]

/-- Claim C5, witness: a two-item batch whose second item parses to a
document with an empty identifier is rejected locally with zero backend
calls. -/
theorem claim_C5_witness :
    (BatchCreateItemsToolHandler witnessParse []
        ⟨⟨"acct", false, ""⟩, "db", "cont", "pk", ["gooditem", ""]⟩).1 = none ∧
    ((BatchCreateItemsToolHandler witnessParse []
        ⟨⟨"acct", false, ""⟩, "db", "cont", "pk", ["gooditem", ""]⟩).2.1).isSome ∧
    (BatchCreateItemsToolHandler witnessParse []
        ⟨⟨"acct", false, ""⟩, "db", "cont", "pk", ["gooditem", ""]⟩).2.2 = (0, []) := by
  exact claim_C5 witnessParse []
    ⟨⟨"acct", false, ""⟩, "db", "cont", "pk", ["gooditem", ""]⟩
    rfl (by decide) (by decide) (by decide) (by decide) (by decide)
    ⟨"", by simp, rfl⟩

/-- Claim C9: connection resolution outside emulator mode with an empty
account fails with the error account name is required and zero network
attempts; outside emulator mode with a non-empty account the resolved
endpoint is exactly https concatenated with the account and the
documents.azure.com:443 service domain, the derivation of
CosmosDBServiceClientRetriever.Get; and in emulator mode with no endpoint
override it resolves to the default local emulator endpoint. -/
theorem claim_C9 (c ce : ConnectionConfig) (accountKey : String) :
    (c.UseEmulator = false → c.Account = "" →
      c.Validate = some "account name is required" ∧
      c.GetClient accountKey = (.error "account name is required", 0)) ∧
    (c.UseEmulator = false → c.Account ≠ "" →
      c.GetEndpoint = "https://" ++ c.Account ++ ".documents.azure.com:443/" ∧
      c.GetEndpoint = serviceEndpoint c.Account) ∧
    (ce.UseEmulator = true → ce.EmulatorEndpoint = "" →
      ce.GetEndpoint = DefaultEmulatorEndpoint) := by
  refine ⟨fun hm ha => ?_, fun hm ha => ?_, fun hm he => ?_⟩
  · have hv : c.Validate = some "account name is required" := by
      simp [ConnectionConfig.Validate, hm, ha]
    exact ⟨hv, by simp [ConnectionConfig.GetClient, hv]⟩
  · constructor <;> simp [ConnectionConfig.GetEndpoint, serviceEndpoint, hm]
  · simp [ConnectionConfig.GetEndpoint, hm, he]

/-- Claim C9, witness: the empty-account service config, a service config
with account myaccount, and the default emulator config. -/
theorem claim_C9_witness :
    (ConnectionConfig.Validate ⟨"", false, ""⟩ = some "account name is required" ∧
     ConnectionConfig.GetClient "" ⟨"", false, ""⟩ =
       (.error "account name is required", 0)) ∧
    (ConnectionConfig.GetEndpoint ⟨"myaccount", false, ""⟩ =
       "https://myaccount.documents.azure.com:443/" ∧
     ConnectionConfig.GetEndpoint ⟨"myaccount", false, ""⟩ =
       serviceEndpoint "myaccount") ∧
    ConnectionConfig.GetEndpoint ⟨"", true, ""⟩ = DefaultEmulatorEndpoint := by
  have h1 := claim_C9 ⟨"", false, ""⟩ ⟨"", true, ""⟩ ""
  have h2 := claim_C9 ⟨"myaccount", false, ""⟩ ⟨"", true, ""⟩ ""
  exact ⟨h1.1 rfl rfl, h2.2.1 rfl (by decide), h1.2.2 rfl rfl⟩

end CosmosTools
